import Mathlib

/-!
A shallow embedding of `src/mock-crm/mock-crm-api.py`, a Flask mock CRM
server, and proofs about its contact generator, in-memory store, query
engine and creation endpoints.

Conventions of the embedding:

* Wall-clock instants live on an abstract linear time axis measured in
  seconds (`Int`).  A Python `datetime` value is a pair of a naive instant
  and an optional UTC offset (aware values).
* Timestamp-position strings are abstracted by how `datetime.fromisoformat`
  treats them (see `TStr`): this is the only operation the program ever
  applies to them besides `str.replace('Z', '+00:00')`.
* Random draws (`random.choice`, `random.randint`, `random.sample`, faker
  providers) are modelled by an explicit bundle of unconstrained seeds
  (`GenChoices`); an inclusive uniform draw from `[lo, hi]` becomes
  `lo + seed % (hi - lo + 1)`, a uniform choice from a list of length `n`
  becomes indexing at `seed % n`.
* Each Flask handler becomes a function from the module-level mutable state
  (`contacts_db`, `contact_counter`) and its request data to a response
  paired with the successor state.  An exception that the handler does not
  catch (Python `TypeError` from a naive/aware datetime comparison) is the
  `Except.error` case of the response.
-/

namespace MockCrm

/-- A Python `datetime` value: `t` is the wall-clock reading in seconds on an
abstract linear time axis, `tz` is the UTC offset in seconds when the value
is timezone-aware, and `none` when it is naive. -/
structure DT where
  t : Int
  tz : Option Int
deriving DecidableEq, Repr

/-- The Python exceptions the embedded handlers can raise: `ValueError`
(bad ISO string) and `TypeError` (naive/aware datetime comparison). -/
inductive PyErr where
  | valueError
  | typeError
deriving DecidableEq, Repr

/-- Equality of handler outcomes is decidable. -/
instance {ε α : Type} [DecidableEq ε] [DecidableEq α] : DecidableEq (Except ε α) :=
  fun a b =>
  match a, b with
  | .error e1, .error e2 =>
    if h : e1 = e2 then isTrue (congrArg Except.error h)
    else isFalse (fun hc => h (Except.error.inj hc))
  | .ok a1, .ok a2 =>
    if h : a1 = a2 then isTrue (congrArg Except.ok h)
    else isFalse (fun hc => h (Except.ok.inj hc))
  | .error _, .ok _ => isFalse (fun hc => Except.noConfusion hc)
  | .ok _, .error _ => isFalse (fun hc => Except.noConfusion hc)

/-- Python datetime comparison `d1 > d2` (used at line 94): comparing an
offset-naive with an offset-aware datetime raises `TypeError`; two naive
values compare by wall clock; two aware values compare by UTC instant. -/
def pyGt (d1 d2 : DT) : Except PyErr Bool :=
  match d1.tz, d2.tz with
  | none, none => .ok (decide (d2.t < d1.t))
  | some o1, some o2 => .ok (decide (d2.t - o2 < d1.t - o1))
  | _, _ => .error .typeError

/-- A string in timestamp position, abstracted by how
`datetime.fromisoformat` treats it: `iso d` stands for a string that parses
to the datetime `d` and contains no Z character (in particular every
`datetime.isoformat()` output: Python spells a UTC offset `+00:00`, never
`Z`); `zulu t` stands for the naive ISO spelling of instant `t` followed by
a trailing Z UTC marker; `junk s` stands for a string that does not parse,
and still does not parse after its Z characters (if any) are replaced by
`+00:00`. -/
inductive TStr where
  | iso (d : DT)
  | zulu (t : Int)
  | junk (s : String)
deriving DecidableEq, Repr

/-- Line 91, argument position: `since.replace('Z', '+00:00')` turns a
trailing-Z string into an aware ISO string and leaves the other classes of
strings in their class. -/
def replaceZ : TStr → TStr
  | .zulu t => .iso { t := t, tz := some 0 }
  | s => s

/-- Model of `datetime.fromisoformat`: succeeds exactly on ISO strings and
raises `ValueError` otherwise.  A bare trailing Z is rejected (Python < 3.11
behaviour, which line 91 works around by replacing it first; the handler
never applies `fromisoformat` to a `zulu` string in `since` position). -/
def fromisoformat : TStr → Except PyErr DT
  | .iso d => .ok d
  | .zulu _ => .error .valueError
  | .junk _ => .error .valueError

/-- Truthiness of the `since` string at line 89 (`if since:`): only the
empty string is falsy; ISO spellings are never empty. -/
def TStr.truthy : TStr → Bool
  | .junk s => decide (s ≠ "")
  | _ => true

/-- The contact record built by `generate_mock_contact` (lines 52-66). -/
structure Contact where
  id : String
  firstName : String
  lastName : String
  email : String
  phone : String
  company : String
  jobTitle : String
  tags : List String
  createdAt : TStr
  lastModified : TStr
  source : String
  leadScore : Int
  notes : String
deriving DecidableEq, Repr

/-- Decimal string of a natural number, most-significant digit first,
modelling Python `str(int)` as used by the f-string at line 53 and by
`len()` interpolation at line 153. -/
def pyStr (n : Nat) : String :=
  if n = 0 then "0" else ((Nat.digits 10 n).reverse.map Nat.digitChar).asString

/-- The random draws and clock reading consumed by one call of
`generate_mock_contact`.  `now` is the wall clock at the time of the call;
`createdBack` drives the faker draw of `createdAt` from the 30 days before
`now` (line 61).  The remaining fields seed the name, email, phone, company,
job title, tag and lead-score draws. -/
structure GenChoices where
  firstName : String
  lastName : String
  email : String
  fakerPhone : String
  phoneIdx : Nat
  phone9 : Nat
  phoneA : Nat
  phoneB : Nat
  phoneC : Nat
  phoneD : Nat
  phoneE : Nat
  companyIdx : Nat
  jobIdx : Nat
  tagCount : Nat
  tagI1 : Nat
  tagI2 : Nat
  tagI3 : Nat
  createdBack : Nat
  leadSeed : Nat
  notes : String
  now : Int
deriving DecidableEq, Repr

/-- The five phone format thunks of lines 27-33 and the uniform choice among
them at line 57.  `fake.random_int(min=a, max=b)` is an inclusive uniform
draw, modelled as `a + seed % (b - a + 1)`. -/
def phoneOf (g : GenChoices) : String :=
  match g.phoneIdx % 5 with
  | 0 => "+33" ++ pyStr (100000000 + g.phone9 % 700000000)
  | 1 => g.fakerPhone
  | 2 => "0" ++ pyStr (100000000 + g.phone9 % 700000000)
  | 3 =>
    "0" ++ pyStr (1 + g.phoneA % 9) ++ "." ++ pyStr (10 + g.phoneB % 90) ++ "." ++
      pyStr (10 + g.phoneC % 90) ++ "." ++ pyStr (10 + g.phoneD % 90) ++ "." ++
      pyStr (10 + g.phoneE % 90)
  | _ =>
    "0" ++ pyStr (1 + g.phoneA % 9) ++ " " ++ pyStr (10 + g.phoneB % 90) ++ " " ++
      pyStr (10 + g.phoneC % 90) ++ " " ++ pyStr (10 + g.phoneD % 90) ++ " " ++
      pyStr (10 + g.phoneE % 90)

/-- The fixed company list of lines 36-40. -/
def companies : List String :=
  ["TechCorp", "DataInc", "InnovateSAS", "DigitalPro", "CloudSystems",
   "AI Solutions", "WebDev Studio", "Analytics Plus", "StartupLab",
   "Enterprise Solutions", "Digital Agency", "Tech Consulting"]

/-- The fixed job-title list of lines 43-47 (copied byte for byte, including
the mojibake of the source file). -/
def job_titles : List String :=
  ["DÃ©veloppeur Full Stack", "Chef de Projet", "Directeur Marketing",
   "Analyste de DonnÃ©es", "Consultant IT", "Responsable Commercial",
   "Product Owner", "UX Designer", "DevOps Engineer", "Data Scientist"]

/-- The fixed tag vocabulary of line 50. -/
def tag_options : List String :=
  ["prospect", "client", "lead", "enterprise", "startup", "premium"]

/-- Line 60: `random.sample(tag_options, k=random.randint(1, 3))` draws 1-3
distinct tags without replacement, modelled by successive removal at seeded
indices. -/
def sampleTags (g : GenChoices) : List String :=
  let k := 1 + g.tagCount % 3
  let i1 := g.tagI1 % 6
  let t1 := tag_options.getD i1 ""
  let r1 := tag_options.eraseIdx i1
  let i2 := g.tagI2 % 5
  let t2 := r1.getD i2 ""
  let r2 := r1.eraseIdx i2
  let i3 := g.tagI3 % 4
  let t3 := r2.getD i3 ""
  List.take k [t1, t2, t3]

/-- `generate_mock_contact` (lines 21-68): bump the shared counter (line 24),
then build the record.  `createdAt` is a faker draw from the 30 days before
the call (line 61) and `lastModified` is the current instant (line 62); the
id is the f-string of line 53 over the bumped counter. -/
def generate_mock_contact (g : GenChoices) (contact_counter : Nat) : Contact × Nat :=
  let ctr := contact_counter + 1
  ({ id := "mock_crm_" ++ pyStr ctr
     firstName := g.firstName
     lastName := g.lastName.toUpper
     email := g.email
     phone := phoneOf g
     company := companies.getD (g.companyIdx % 12) ""
     jobTitle := job_titles.getD (g.jobIdx % 10) ""
     tags := sampleTags g
     createdAt := .iso { t := g.now - (g.createdBack % (30 * 86400 + 1) : Nat), tz := none }
     lastModified := .iso { t := g.now, tz := none }
     source := "website_form"
     leadScore := 10 + (g.leadSeed % 91 : Nat)
     notes := g.notes }, ctr)

/-- The module-level mutable state: `contacts_db` (line 18) and
`contact_counter` (line 19, initially 1000). -/
structure SrvState where
  contacts_db : List Contact
  contact_counter : Nat
deriving DecidableEq, Repr

/-- Generate `k` contacts in sequence, threading the shared counter and
appending in generation order; the i-th creation consumes the draw bundle
`gens (i0 + i)`.  Shared by the bootstrap loop (lines 71-72) and the
simulate loop (lines 147-150). -/
def genMany (gens : Nat → GenChoices) (i0 k ctr : Nat) : List Contact × Nat :=
  match k with
  | 0 => ([], ctr)
  | k + 1 =>
    let p := generate_mock_contact (gens i0) ctr
    let rest := genMany gens (i0 + 1) k p.2
    (p.1 :: rest.1, rest.2)

/-- Bootstrap seeding (lines 70-72): 50 generated contacts appended to the
initially empty store, with the counter starting at 1000. -/
def seedState (gens : Nat → GenChoices) : SrvState :=
  let p := genMany gens 0 50 1000
  { contacts_db := p.1, contact_counter := p.2 }

/-- Normalise one bound of a Python slice `l[a:b]` over a sequence of length
`n`: a negative index counts from the end and clamps at 0, a non-negative
one clamps at `n`. -/
def pyBound (n : Nat) (i : Int) : Nat :=
  if i < 0 then ((n : Int) + i).toNat else min i.toNat n

/-- Python slice `l[a:b]` with unit step, as used at line 101. -/
def pySlice {α : Type} (l : List α) (a b : Int) : List α :=
  let s := pyBound l.length a
  let e := pyBound l.length b
  (l.drop s).take (e - s)

/-- The filter comprehension of lines 92-95: parse each stored
`lastModified` string and keep the contacts strictly newer than `since_dt`;
elements are visited left to right and the first exception aborts the
comprehension. -/
def filterSince (since_dt : DT) : List Contact → Except PyErr (List Contact)
  | [] => .ok []
  | c :: cs => do
    let d ← fromisoformat c.lastModified
    let keep ← pyGt d since_dt
    let rest ← filterSince since_dt cs
    pure (if keep then c :: rest else rest)

/-- Lines 88-95, the body of the `try` block: the repository snapshot,
filtered when a `since` value is in effect.  Any `ValueError` raised here is
caught at line 96 (HTTP 400); a `TypeError` from the comparison is not. -/
def filteredOf (db : List Contact) (since : Option TStr) : Except PyErr (List Contact) :=
  match since with
  | none => .ok db
  | some s => do
    let since_dt ← fromisoformat (replaceZ s)
    filterSince since_dt db

/-- The `since` value in effect after the truthiness test of line 89: a
falsy (empty) string counts as absent. -/
def effSince : Option TStr → Option TStr
  | some sv => if sv.truthy then some sv else none
  | none => none

/-- The `pagination` object of lines 106-111. -/
structure Pagination where
  total : Int
  limit : Int
  offset : Int
  hasMore : Bool
deriving DecidableEq, Repr

/-- The 200 response body of lines 104-113. -/
structure ContactsPage where
  contacts : List Contact
  pagination : Pagination
  timestamp : TStr
deriving DecidableEq, Repr

/-- Outcome of `get_contacts`: a 200 page or the 400 error body of
line 97. -/
inductive ContactsResult where
  | ok (page : ContactsPage)
  | badRequest (error : String)
deriving DecidableEq, Repr

/-- `get_contacts` (lines 79-115).  `limit?` and `offset?` are the
`int()`-parsed query parameters when given (defaults 20 and 0, line 83-84);
`since?` is the raw `since` parameter; `now` is the clock at response time
(line 112).  The limit is clamped from above only (line 83:
`min(int(...), 100)`).  The handler only reads the store, so the returned
state is the input state; an uncaught `TypeError` (HTTP 500) is the
`Except.error` case. -/
def get_contacts (s : SrvState) (limit? offset? : Option Int) (since? : Option TStr)
    (now : Int) : Except PyErr ContactsResult × SrvState :=
  let limit := min (limit?.getD 20) 100
  let offset := offset?.getD 0
  let res : Except PyErr ContactsResult :=
    match filteredOf s.contacts_db (effSince since?) with
    | .error .valueError =>
      .ok (.badRequest "Invalid \x27since\x27 date format. Use ISO format.")
    | .error .typeError => .error .typeError
    | .ok filtered =>
      .ok (.ok
        { contacts := pySlice filtered offset (offset + limit)
          pagination :=
            { total := (filtered.length : Int)
              limit := limit
              offset := offset
              hasMore := decide (offset + limit < (filtered.length : Int)) }
          timestamp := .iso { t := now, tz := none } })
  (res, s)

/-- Outcome of `get_contact`: a 200 contact or the 404 error body of
line 122. -/
inductive OneResult where
  | ok (c : Contact)
  | notFound (error : String)
deriving DecidableEq, Repr

/-- `get_contact` (lines 117-124): first stored contact whose id matches,
else a 404 body.  The handler only reads the store. -/
def get_contact (s : SrvState) (contact_id : String) : OneResult × SrvState :=
  match s.contacts_db.find? (fun c => c.id == contact_id) with
  | some c => (.ok c, s)
  | none => (.notFound "Contact not found", s)

/-- A JSON create payload, restricted to the contact schema: `some` marks a
key present in the request body.  The `id` field is carried only to show it
is discarded by the overlay. -/
structure Payload where
  id : Option String := none
  firstName : Option String := none
  lastName : Option String := none
  email : Option String := none
  phone : Option String := none
  company : Option String := none
  jobTitle : Option String := none
  tags : Option (List String) := none
  createdAt : Option TStr := none
  lastModified : Option TStr := none
  source : Option String := none
  leadScore : Option Int := none
  notes : Option String := none
deriving DecidableEq, Repr

/-- Line 134: overlay every field present in the payload except the id key,
which the dict comprehension filters out. -/
def updateExceptId (c : Contact) (p : Payload) : Contact :=
  { id := c.id
    firstName := p.firstName.getD c.firstName
    lastName := p.lastName.getD c.lastName
    email := p.email.getD c.email
    phone := p.phone.getD c.phone
    company := p.company.getD c.company
    jobTitle := p.jobTitle.getD c.jobTitle
    tags := p.tags.getD c.tags
    createdAt := p.createdAt.getD c.createdAt
    lastModified := p.lastModified.getD c.lastModified
    source := p.source.getD c.source
    leadScore := p.leadScore.getD c.leadScore
    notes := p.notes.getD c.notes }

/-- `create_contact` (lines 126-138): generate a fresh contact, overlay the
payload when the body is truthy (line 133), append, and return the merged
record with status 201.  A `none` body stands for an absent or falsy JSON
body, which skips the overlay. -/
def create_contact (s : SrvState) (data : Option Payload) (g : GenChoices) :
    (Contact × Nat) × SrvState :=
  let p := generate_mock_contact g s.contact_counter
  let contact := match data with
    | some d => updateExceptId p.1 d
    | none => p.1
  ((contact, 201),
   { contacts_db := s.contacts_db ++ [contact], contact_counter := p.2 })

/-- The 200 response body of lines 152-155. -/
structure SimulatePage where
  message : String
  contacts : List Contact
deriving DecidableEq, Repr

/-- `simulate_new_contacts` (lines 141-155): `range(min(count, 20))` caps
the creations at 20 and is empty for a negative count; the default count is
5 (line 144). -/
def simulate_new_contacts (s : SrvState) (count? : Option Int) (gens : Nat → GenChoices) :
    SimulatePage × SrvState :=
  let count := count?.getD 5
  let p := genMany gens 0 (min count 20).toNat s.contact_counter
  ({ message := "Created " ++ pyStr p.1.length ++ " new contacts"
     contacts := p.1 },
   { contacts_db := s.contacts_db ++ p.1, contact_counter := p.2 })

/-- A mutating request: one of the two creation paths reachable after the
bootstrap, with its random draws. -/
inductive Op where
  | create (data : Option Payload) (g : GenChoices)
  | simulate (count? : Option Int) (gens : Nat → GenChoices)

/-- Run one mutating request against the store. -/
def runOp (s : SrvState) : Op → SrvState
  | .create data g => (create_contact s data g).2
  | .simulate count? gens => (simulate_new_contacts s count? gens).2

/-- Run a sequence of mutating requests against the store. -/
def runOps (s : SrvState) (ops : List Op) : SrvState :=
  ops.foldl runOp s

/-- The timestamp invariant of one stored contact, decidably: both
timestamps are naive ISO instants and `createdAt` is not after
`lastModified`. -/
def timesOkB (c : Contact) : Bool :=
  match c.createdAt, c.lastModified with
  | .iso d1, .iso d2 => d1.tz.isNone && d2.tz.isNone && decide (d1.t ≤ d2.t)
  | _, _ => false

/-- An operation whose payload does not touch the two timestamp fields. -/
def opKeepsTimes : Op → Bool
  | .create (some d) _ => d.createdAt.isNone && d.lastModified.isNone
  | .create none _ => true
  | .simulate _ _ => true

/-- The id string assigned to counter value `n` (the f-string of line 53). -/
def idOf (n : Nat) : String := "mock_crm_" ++ pyStr n

/-- Two strings with the same character list are equal. -/
theorem string_data_inj {s t : String} (h : s.data = t.data) : s = t := by
  cases s; cases t; exact congrArg String.mk h

/-- `Nat.digitChar` is injective below 10. -/
theorem digitChar_inj_lt : ∀ a < 10, ∀ b < 10, Nat.digitChar a = Nat.digitChar b → a = b := by
  decide

/-- Every digit of a base-10 expansion is below 10. -/
theorem digits_all_lt (n : Nat) : ∀ x ∈ Nat.digits 10 n, x < 10 :=
  fun _ hx => Nat.digits_lt_base (by norm_num) hx

/-- Mapping `Nat.digitChar` over lists of digits below 10 is injective. -/
theorem map_digitChar_inj :
    ∀ l1 l2 : List Nat, (∀ x ∈ l1, x < 10) → (∀ x ∈ l2, x < 10) →
      l1.map Nat.digitChar = l2.map Nat.digitChar → l1 = l2 := by
  intro l1
  induction l1 with
  | nil =>
    intro l2 _ _ h
    cases l2 with
    | nil => rfl
    | cons b t2 => simp at h
  | cons a t ih =>
    intro l2 h1 h2 h
    cases l2 with
    | nil => simp at h
    | cons b t2 =>
      simp only [List.map_cons, List.cons.injEq] at h
      have ha : a < 10 := h1 a (List.mem_cons_self a t)
      have hb : b < 10 := h2 b (List.mem_cons_self b t2)
      have hab : a = b := digitChar_inj_lt a ha b hb h.1
      have ht : t = t2 :=
        ih t2 (fun x hx => h1 x (List.mem_cons_of_mem a hx))
          (fun x hx => h2 x (List.mem_cons_of_mem b hx)) h.2
      rw [hab, ht]

/-- A positive natural never prints as the string "0". -/
theorem pyStr_pos_ne_zeroStr {n : Nat} (hn : n ≠ 0) : pyStr n ≠ "0" := by
  intro h
  have hd : ((Nat.digits 10 n).reverse.map Nat.digitChar) = ['0'] := by
    have := congrArg String.data h
    rw [pyStr, if_neg hn] at this
    exact this
  cases hrev : (Nat.digits 10 n).reverse with
  | nil => rw [hrev] at hd; simp at hd
  | cons d tl =>
    rw [hrev] at hd
    simp only [List.map_cons, List.cons.injEq] at hd
    have htl : tl = [] := List.map_eq_nil_iff.mp hd.2
    have hdig : Nat.digits 10 n = [d] := by
      have : (Nat.digits 10 n).reverse = [d] := by rw [hrev, htl]
      have h2 := congrArg List.reverse this
      simpa using h2
    have hsplit := Nat.digits_of_two_le_of_pos (b := 10) (by norm_num) (Nat.pos_of_ne_zero hn)
    rw [hdig] at hsplit
    have hd0 : d = 0 := by
      have hmem : d ∈ Nat.digits 10 n := by rw [hdig]; exact List.mem_singleton_self d
      exact digitChar_inj_lt d (digits_all_lt n d hmem) 0 (by norm_num) hd.1
    have hq : Nat.digits 10 (n / 10) = [] := (List.cons.injEq _ _ _ _ ▸ hsplit).2.symm
    have hzero : n / 10 = 0 := Nat.digits_eq_nil_iff_eq_zero.mp hq
    have hmod : n % 10 = d := (List.cons.injEq _ _ _ _ ▸ hsplit).1.symm
    omega

/-- The decimal printer is injective. -/
theorem pyStr_injective : Function.Injective pyStr := by
  intro m n h
  by_cases hm : m = 0 <;> by_cases hn : n = 0
  · rw [hm, hn]
  · exfalso
    apply pyStr_pos_ne_zeroStr hn
    rw [← h, pyStr, if_pos hm]
  · exfalso
    apply pyStr_pos_ne_zeroStr hm
    rw [h, pyStr, if_pos hn]
  · rw [pyStr, if_neg hm, pyStr, if_neg hn] at h
    have hdata := congrArg String.data h
    have hmap : (Nat.digits 10 m).reverse.map Nat.digitChar =
        (Nat.digits 10 n).reverse.map Nat.digitChar := hdata
    have hrev : (Nat.digits 10 m).reverse = (Nat.digits 10 n).reverse :=
      map_digitChar_inj _ _
        (fun x hx => digits_all_lt m x (List.mem_reverse.mp hx))
        (fun x hx => digits_all_lt n x (List.mem_reverse.mp hx)) hmap
    exact Nat.digits_inj_iff.mp (List.reverse_injective hrev)

/-- The id strings of distinct counter values are distinct. -/
theorem idOf_injective : Function.Injective idOf := by
  intro a b h
  rw [idOf, idOf] at h
  have hdata := congrArg String.data h
  rw [String.data_append, String.data_append] at hdata
  have : (pyStr a).data = (pyStr b).data := List.append_cancel_left hdata
  exact pyStr_injective (string_data_inj this)

/-- The id of a freshly generated contact is the bumped counter id. -/
theorem generate_id (g : GenChoices) (ctr : Nat) :
    (generate_mock_contact g ctr).1.id = idOf (ctr + 1) := rfl

/-- Generating `k` contacts advances the counter by `k`. -/
theorem genMany_snd (gens : Nat → GenChoices) (k : Nat) :
    ∀ i0 ctr, (genMany gens i0 k ctr).2 = ctr + k := by
  induction k with
  | zero => intro i0 ctr; rfl
  | succ k ih =>
    intro i0 ctr
    show (genMany gens (i0 + 1) k (ctr + 1)).2 = ctr + (k + 1)
    rw [ih]; omega

/-- The ids of `k` sequentially generated contacts are the `k` counter ids
following `ctr`. -/
theorem genMany_map_id (gens : Nat → GenChoices) (k : Nat) :
    ∀ i0 ctr, (genMany gens i0 k ctr).1.map (fun c => c.id) =
      (List.range' (ctr + 1) k).map idOf := by
  induction k with
  | zero => intro i0 ctr; rfl
  | succ k ih =>
    intro i0 ctr
    show idOf (ctr + 1) :: (genMany gens (i0 + 1) k (ctr + 1)).1.map (fun c => c.id) =
      (List.range' (ctr + 1) (k + 1)).map idOf
    rw [ih, List.range'_succ]
    rfl

/-- Generating `k` contacts yields `k` records. -/
theorem genMany_length (gens : Nat → GenChoices) (k : Nat) :
    ∀ i0 ctr, (genMany gens i0 k ctr).1.length = k := by
  induction k with
  | zero => intro i0 ctr; rfl
  | succ k ih =>
    intro i0 ctr
    show (genMany gens (i0 + 1) k (ctr + 1)).1.length + 1 = k + 1
    rw [ih]

/-- A freshly generated contact satisfies the timestamp invariant:
`createdAt` is drawn from the 30 days before `now` and `lastModified` is
`now` itself. -/
theorem generate_timesOk (g : GenChoices) (ctr : Nat) :
    timesOkB (generate_mock_contact g ctr).1 = true := by
  simp only [generate_mock_contact, timesOkB, Option.isNone_none, Bool.true_and,
    Bool.and_eq_true, decide_eq_true_eq]
  omega

/-- Every contact in a generated batch satisfies the timestamp invariant. -/
theorem genMany_timesOk (gens : Nat → GenChoices) (k : Nat) :
    ∀ i0 ctr, (genMany gens i0 k ctr).1.all timesOkB = true := by
  induction k with
  | zero => intro i0 ctr; rfl
  | succ k ih =>
    intro i0 ctr
    show (timesOkB (generate_mock_contact (gens i0) ctr).1 &&
      (genMany gens (i0 + 1) k (ctr + 1)).1.all timesOkB) = true
    rw [generate_timesOk, ih]
    rfl

/-- The id bookkeeping invariant: the counter never went below its initial
value and the stored ids are exactly the counter ids consumed so far, in
order. -/
def idsOk (s : SrvState) : Prop :=
  1000 ≤ s.contact_counter ∧
    s.contacts_db.map (fun c => c.id) =
      (List.range' 1001 (s.contact_counter - 1000)).map idOf

/-- Assemble the id invariant from its two components. -/
theorem idsOk_mk (db : List Contact) (ctr : Nat) (h1 : 1000 ≤ ctr)
    (h2 : db.map (fun c => c.id) = (List.range' 1001 (ctr - 1000)).map idOf) :
    idsOk { contacts_db := db, contact_counter := ctr } :=
  ⟨h1, h2⟩

/-- The state left by `create_contact`, spelled out. -/
theorem create_state (s : SrvState) (data : Option Payload) (g : GenChoices) :
    (create_contact s data g).2 =
      { contacts_db := s.contacts_db ++ [(create_contact s data g).1.1],
        contact_counter := s.contact_counter + 1 } := rfl

/-- The created record always carries the freshly generated id, whatever the
payload holds. -/
theorem create_contact_id (s : SrvState) (data : Option Payload) (g : GenChoices) :
    (create_contact s data g).1.1.id = idOf (s.contact_counter + 1) := by
  cases data <;> rfl

/-- The bootstrap state satisfies the id invariant. -/
theorem idsOk_seed (gens : Nat → GenChoices) : idsOk (seedState gens) := by
  apply idsOk_mk
  · rw [genMany_snd]
    omega
  · rw [genMany_snd, genMany_map_id]

/-- Every mutating request preserves the id invariant. -/
theorem idsOk_runOp (s : SrvState) (op : Op) (h : idsOk s) : idsOk (runOp s op) := by
  obtain ⟨hc, hm⟩ := h
  cases op with
  | create data g =>
    show idsOk (SrvState.mk (s.contacts_db ++ [(create_contact s data g).1.1])
      (s.contact_counter + 1))
    apply idsOk_mk
    · omega
    · rw [List.map_append, hm, List.map_singleton, create_contact_id]
      have hrange : List.range' 1001 (s.contact_counter + 1 - 1000) =
          List.range' 1001 (s.contact_counter - 1000) ++ [1001 + (s.contact_counter - 1000)] := by
        have he : s.contact_counter + 1 - 1000 = (s.contact_counter - 1000) + 1 := by omega
        rw [he, List.range'_1_concat]
      rw [hrange, List.map_append, List.map_singleton]
      have he2 : 1001 + (s.contact_counter - 1000) = s.contact_counter + 1 := by omega
      rw [he2]
  | simulate count? gens =>
    show idsOk (SrvState.mk
      (s.contacts_db ++ (genMany gens 0 (min (count?.getD 5) 20).toNat s.contact_counter).1)
      ((genMany gens 0 (min (count?.getD 5) 20).toNat s.contact_counter).2))
    apply idsOk_mk
    · rw [genMany_snd]; omega
    · rw [genMany_snd, List.map_append, hm, genMany_map_id, ← List.map_append]
      have h1 : s.contact_counter + 1 = 1001 + (s.contact_counter - 1000) := by omega
      have h2 : s.contact_counter + (min (count?.getD 5) 20).toNat - 1000 =
          (min (count?.getD 5) 20).toNat + (s.contact_counter - 1000) := by omega
      rw [h1, List.range'_append_1, h2]

/-- Any sequence of mutating requests preserves the id invariant. -/
theorem idsOk_runOps (ops : List Op) : ∀ s, idsOk s → idsOk (runOps s ops) := by
  induction ops with
  | nil => intro s h; exact h
  | cons op rest ih =>
    intro s h
    exact ih (runOp s op) (idsOk_runOp s op h)

/-- A state satisfying the id invariant has pairwise distinct ids. -/
theorem idsOk_nodup {s : SrvState} (h : idsOk s) :
    (s.contacts_db.map (fun c => c.id)).Nodup := by
  rw [h.2]
  exact (List.nodup_range' 1001 _).map idOf_injective

/-- Every mutating request whose payload leaves the timestamps alone
preserves the timestamp invariant of the whole store. -/
theorem timesOk_runOp (s : SrvState) (op : Op)
    (hall : s.contacts_db.all timesOkB = true) (hop : opKeepsTimes op = true) :
    (runOp s op).contacts_db.all timesOkB = true := by
  cases op with
  | create data g =>
    cases data with
    | none =>
      show (s.contacts_db ++ [(generate_mock_contact g s.contact_counter).1]).all timesOkB = true
      rw [List.all_append, hall, Bool.true_and]
      show (timesOkB (generate_mock_contact g s.contact_counter).1 && true) = true
      rw [generate_timesOk]
      rfl
    | some d =>
      have hct : d.createdAt = none ∧ d.lastModified = none := by
        have := hop
        simp only [opKeepsTimes, Bool.and_eq_true, Option.isNone_iff_eq_none] at this
        exact this
      show (s.contacts_db ++
        [updateExceptId (generate_mock_contact g s.contact_counter).1 d]).all timesOkB = true
      rw [List.all_append, hall, Bool.true_and]
      have hpres : timesOkB (updateExceptId (generate_mock_contact g s.contact_counter).1 d) =
          timesOkB (generate_mock_contact g s.contact_counter).1 := by
        simp only [timesOkB, updateExceptId, hct.1, hct.2, Option.getD_none]
      show (timesOkB (updateExceptId (generate_mock_contact g s.contact_counter).1 d) && true) = true
      rw [hpres, generate_timesOk]
      rfl
  | simulate count? gens =>
    show (s.contacts_db ++ (genMany gens 0 _ s.contact_counter).1).all timesOkB = true
    rw [List.all_append, hall, Bool.true_and, genMany_timesOk]

/-- Any sequence of timestamp-preserving requests keeps the timestamp
invariant of the whole store. -/
theorem timesOk_runOps (ops : List Op) : ∀ s, s.contacts_db.all timesOkB = true →
    ops.all opKeepsTimes = true → (runOps s ops).contacts_db.all timesOkB = true := by
  induction ops with
  | nil => intro s h _; exact h
  | cons op rest ih =>
    intro s h hops
    have hsplit : opKeepsTimes op = true ∧ rest.all opKeepsTimes = true := by
      simpa using hops
    exact ih (runOp s op) (timesOk_runOp s op h hsplit.1) hsplit.2

/-- The bootstrap store satisfies the timestamp invariant. -/
theorem seed_timesOk (gens : Nat → GenChoices) :
    (seedState gens).contacts_db.all timesOkB = true := by
  rw [seedState]
  rw [genMany_timesOk]

/-- A fixed bundle of generator draws, for concrete evaluations. -/
def g0 : GenChoices :=
  { firstName := "Marie"
    lastName := "Curie"
    email := "mc@example.com"
    fakerPhone := "01 02 03 04 05"
    phoneIdx := 1
    phone9 := 0
    phoneA := 0
    phoneB := 0
    phoneC := 0
    phoneD := 0
    phoneE := 0
    companyIdx := 0
    jobIdx := 0
    tagCount := 0
    tagI1 := 0
    tagI2 := 0
    tagI3 := 0
    createdBack := 3600
    leadSeed := 0
    notes := "a note"
    now := 1000000 }

/-- The pristine pre-bootstrap state: empty store, counter 1000. -/
def s0 : SrvState := { contacts_db := [], contact_counter := 1000 }

/-- A handcrafted stored contact with a given id and a given naive
`lastModified` instant, for concrete repository states. -/
def mkC (idv : String) (lm : Int) : Contact :=
  { id := idv
    firstName := "Ada"
    lastName := "L"
    email := "a@b.c"
    phone := "0102030405"
    company := "TechCorp"
    jobTitle := "UX Designer"
    tags := ["prospect"]
    createdAt := .iso { t := 0, tz := none }
    lastModified := .iso { t := lm, tz := none }
    source := "website_form"
    leadScore := 50
    notes := "x" }

/-- A concrete six-contact repository state. -/
def sSix : SrvState :=
  { contacts_db := [mkC "a" 1, mkC "b" 2, mkC "c" 3, mkC "d" 4, mkC "e" 5, mkC "f" 6]
    contact_counter := 1006 }

/-- A create payload that overrides both timestamp fields, putting
`lastModified` strictly before `createdAt`. -/
def pBad : Payload :=
  { createdAt := some (.iso { t := 100, tz := none })
    lastModified := some (.iso { t := 50, tz := none }) }

/-- C1 counterexample: the claim quantifies over creation with an arbitrary
payload, but `create_contact` overlays the `createdAt` and `lastModified`
keys of the payload (only `id` is protected), so a payload can store a
contact whose `lastModified` is strictly before its `createdAt`. -/
theorem C1_counterexample :
    ((create_contact s0 (some pBad) g0).2.contacts_db.all timesOkB) = false ∧
    (create_contact s0 (some pBad) g0).1.1.createdAt = .iso { t := 100, tz := none } ∧
    (create_contact s0 (some pBad) g0).1.1.lastModified = .iso { t := 50, tz := none } := by
  refine ⟨by decide, by decide, by decide⟩

/-- C1 (amended): every contact produced by the generator keeps
`lastModified >= createdAt`, so the invariant holds for the whole store
after bootstrap seeding and any sequence of create/simulate requests whose
payloads do not override the two timestamp fields. -/
theorem C1_amended_times_invariant (gens : Nat → GenChoices) (ops : List Op)
    (hops : ops.all opKeepsTimes = true) :
    (runOps (seedState gens) ops).contacts_db.all timesOkB = true :=
  timesOk_runOps ops (seedState gens) (seed_timesOk gens) hops

/-- A create request whose payload sets only `firstName`. -/
def opW : Op := .create (some { firstName := some "Alice" }) g0

/-- C1 witness: the amended invariant at a concrete run (bootstrap followed
by one create whose payload leaves the timestamps alone). -/
theorem C1_amended_witness :
    ([opW].all opKeepsTimes = true) ∧
    (runOps (seedState (fun _ => g0)) [opW]).contacts_db.all timesOkB = true :=
  ⟨rfl, C1_amended_times_invariant (fun _ => g0) [opW] rfl⟩

/-- C2: a `since` value carrying the trailing-Z UTC marker parses to an
offset-aware datetime (line 91), and comparing it with a stored offset-naive
`lastModified` (line 94) raises a `TypeError` that the handler does not
catch (only `ValueError` is, line 96): the listing crashes (HTTP 500)
instead of succeeding, on any store holding at least one generated
contact. -/
theorem C2_zulu_since_raises_typeError :
    (get_contacts sSix none none (some (.zulu 100)) 0).1 = .error .typeError := by
  decide

/-- C3 counterexample: line 83 clamps the limit from above only
(`min(int(...), 100)`); a requested limit of -5 is echoed as -5 (not 0) and
flows into the slice, which returns one contact instead of the empty page a
[0,100] clamp would force. -/
theorem C3_counterexample :
    (get_contacts sSix (some (-5)) none none 0).1 =
      .ok (.ok
        { contacts := [mkC "a" 1]
          pagination := { total := 6, limit := -5, offset := 0, hasMore := true }
          timestamp := .iso { t := 0, tz := none } }) := by
  decide

/-- C3 (amended): the effective limit is `min(requested, 100)`: values above
100 become 100 and an unspecified limit defaults to 20, but values below 0
are not raised to 0. -/
theorem C3_amended_limit_clamp (s : SrvState) (limit? offset? : Option Int)
    (since? : Option TStr) (now : Int) (page : ContactsPage)
    (h : (get_contacts s limit? offset? since? now).1 = .ok (.ok page)) :
    page.pagination.limit = min (limit?.getD 20) 100 ∧
    (limit? = none → page.pagination.limit = 20) ∧
    (∀ l : Int, limit? = some l → 100 < l → page.pagination.limit = 100) ∧
    (∀ l : Int, limit? = some l → l ≤ 100 → page.pagination.limit = l) := by
  simp only [get_contacts] at h
  cases hfil : filteredOf s.contacts_db (effSince since?) with
  | error e =>
    cases e with
    | valueError => rw [hfil] at h; simp at h
    | typeError => rw [hfil] at h; simp at h
  | ok filtered =>
    rw [hfil] at h
    simp only [Except.ok.injEq, ContactsResult.ok.injEq] at h
    subst h
    refine ⟨rfl, ?_, ?_, ?_⟩
    · intro hnone
      subst hnone
      show min (20 : Int) 100 = 20
      omega
    · intro l hl h100
      subst hl
      show min l 100 = 100
      omega
    · intro l hl hle
      subst hl
      show min l 100 = l
      omega

/-- The page returned for a requested limit of 150 on the six-contact
store: the whole store, with the limit clamped to 100. -/
def pageW : ContactsPage :=
  { contacts := sSix.contacts_db
    pagination := { total := 6, limit := 100, offset := 0, hasMore := false }
    timestamp := .iso { t := 0, tz := none } }

/-- C3 witness: the amended clamp at the concrete request limit 150. -/
theorem C3_amended_witness : pageW.pagination.limit = 100 :=
  (C3_amended_limit_clamp sSix (some 150) none none 0 pageW (by decide)).2.2.1 150 rfl
    (by decide)

/-- C4 counterexample: the empty string fails `fromisoformat`, yet line 89
(`if since:`) treats it as an absent filter, so `since=""` answers 200 with
the unfiltered store instead of the 400 the claim requires for every
unparseable `since` string. -/
theorem C4_counterexample :
    get_contacts s0 none none (some (.junk "")) 0 =
      (.ok (.ok
        { contacts := []
          pagination := { total := 0, limit := 20, offset := 0, hasMore := false }
          timestamp := .iso { t := 0, tz := none } }), s0) := by
  decide

/-- C4 (amended): for every truthy (non-empty) `since` string that fails to
parse, the listing answers the 400 body of line 97 and leaves the store
untouched, producing no contacts at all. -/
theorem C4_badRequest_no_side_effects (s : SrvState) (limit? offset? : Option Int)
    (sv : TStr) (now : Int) (htruthy : sv.truthy = true)
    (hfail : fromisoformat (replaceZ sv) = .error .valueError) :
    get_contacts s limit? offset? (some sv) now =
      (.ok (.badRequest "Invalid \x27since\x27 date format. Use ISO format."), s) := by
  have hf : filteredOf s.contacts_db (effSince (some sv)) = .error PyErr.valueError := by
    simp only [effSince, htruthy, if_true, filteredOf, hfail]
    rfl
  simp only [get_contacts, hf]

/-- C4 witness: the 400 outcome at the concrete request
`since="not-a-date"` on the six-contact store. -/
theorem C4_witness :
    get_contacts sSix (some 3) (some 1) (some (.junk "not-a-date")) 7 =
      (.ok (.badRequest "Invalid \x27since\x27 date format. Use ISO format."), sSix) :=
  C4_badRequest_no_side_effects sSix (some 3) (some 1) (.junk "not-a-date") 7 (by decide) rfl

/-- A Python slice with non-negative bounds `[o : o + li]` is drop-then-take. -/
theorem pySlice_nonneg {α : Type} (l : List α) (o li : Int) (ho : 0 ≤ o) (hl : 0 ≤ li) :
    pySlice l o (o + li) = (l.drop o.toNat).take li.toNat := by
  have hso : ¬ o < 0 := by omega
  have hse : ¬ o + li < 0 := by omega
  simp only [pySlice, pyBound, if_neg hso, if_neg hse]
  have htn : (o + li).toNat = o.toNat + li.toNat := by omega
  rw [htn]
  rcases le_or_lt o.toNat l.length with hle | hgt
  · rw [min_eq_left hle]
    rcases le_or_lt (o.toNat + li.toNat) l.length with hle2 | hgt2
    · rw [min_eq_left hle2]
      congr 1
      omega
    · rw [min_eq_right (le_of_lt hgt2)]
      have hxs : (l.drop o.toNat).length = l.length - o.toNat := by simp
      rw [show l.length - o.toNat = (l.drop o.toNat).length from hxs.symm, List.take_length]
      exact (List.take_of_length_le (by rw [hxs]; omega)).symm
  · rw [min_eq_right (le_of_lt hgt), List.drop_length,
      List.drop_eq_nil_of_le (by omega : l.length ≤ o.toNat)]
    simp

/-- C5: on any state and any filter outcome that succeeds, with a
non-negative offset and a requested limit in [0,100], the listing returns
the window `[offset, offset+limit)` of the filtered sequence (empty when
`offset >= total`), reports `total` as the filtered size, and reports
`hasMore = offset + limit < total`. -/
theorem C5_pagination (s : SrvState) (li o : Int) (since? : Option TStr) (now : Int)
    (fl : List Contact)
    (hf : filteredOf s.contacts_db (effSince since?) = .ok fl)
    (ho : 0 ≤ o) (hl0 : 0 ≤ li) (hl : li ≤ 100) :
    (get_contacts s (some li) (some o) since? now).1 =
      .ok (.ok
        { contacts := (fl.drop o.toNat).take li.toNat
          pagination :=
            { total := (fl.length : Int)
              limit := li
              offset := o
              hasMore := decide (o + li < (fl.length : Int)) }
          timestamp := .iso { t := now, tz := none } }) ∧
    ((fl.length : Int) ≤ o → (fl.drop o.toNat).take li.toNat = []) := by
  constructor
  · simp only [get_contacts, hf, Option.getD_some]
    simp only [show min li 100 = li from by omega]
    rw [pySlice_nonneg fl o li ho hl0]
  · intro hlen
    rw [List.drop_eq_nil_of_le (by omega : fl.length ≤ o.toNat)]
    simp

/-- C5 witness: the first page of ten on the six-contact store. -/
theorem C5_witness :
    (get_contacts sSix (some 10) (some 0) none 0).1 =
      .ok (.ok
        { contacts := (sSix.contacts_db.drop (0 : Int).toNat).take (10 : Int).toNat
          pagination :=
            { total := (sSix.contacts_db.length : Int)
              limit := 10
              offset := 0
              hasMore := decide ((0 : Int) + 10 < (sSix.contacts_db.length : Int)) }
          timestamp := .iso { t := 0, tz := none } }) :=
  (C5_pagination sSix 10 0 none 0 sSix.contacts_db rfl (by decide) (by decide) (by decide)).1

/-- C6: create generates a fresh contact, overlays every payload field
except `id` (the merged record keeps the generator-produced id even when the
payload carries an `id` key), appends the merged record, and returns it in
full with status 201, advancing the counter by one. -/
theorem C6_create_overlay (s : SrvState) (p : Payload) (g : GenChoices) :
    create_contact s (some p) g =
      ((updateExceptId (generate_mock_contact g s.contact_counter).1 p, 201),
       { contacts_db :=
           s.contacts_db ++ [updateExceptId (generate_mock_contact g s.contact_counter).1 p]
         contact_counter := s.contact_counter + 1 }) ∧
    (updateExceptId (generate_mock_contact g s.contact_counter).1 p).id =
      idOf (s.contact_counter + 1) ∧
    (updateExceptId (generate_mock_contact g s.contact_counter).1 p).firstName =
      p.firstName.getD (generate_mock_contact g s.contact_counter).1.firstName ∧
    (updateExceptId (generate_mock_contact g s.contact_counter).1 p).lastName =
      p.lastName.getD (generate_mock_contact g s.contact_counter).1.lastName ∧
    (updateExceptId (generate_mock_contact g s.contact_counter).1 p).email =
      p.email.getD (generate_mock_contact g s.contact_counter).1.email ∧
    (updateExceptId (generate_mock_contact g s.contact_counter).1 p).phone =
      p.phone.getD (generate_mock_contact g s.contact_counter).1.phone ∧
    (updateExceptId (generate_mock_contact g s.contact_counter).1 p).company =
      p.company.getD (generate_mock_contact g s.contact_counter).1.company ∧
    (updateExceptId (generate_mock_contact g s.contact_counter).1 p).jobTitle =
      p.jobTitle.getD (generate_mock_contact g s.contact_counter).1.jobTitle ∧
    (updateExceptId (generate_mock_contact g s.contact_counter).1 p).tags =
      p.tags.getD (generate_mock_contact g s.contact_counter).1.tags ∧
    (updateExceptId (generate_mock_contact g s.contact_counter).1 p).createdAt =
      p.createdAt.getD (generate_mock_contact g s.contact_counter).1.createdAt ∧
    (updateExceptId (generate_mock_contact g s.contact_counter).1 p).lastModified =
      p.lastModified.getD (generate_mock_contact g s.contact_counter).1.lastModified ∧
    (updateExceptId (generate_mock_contact g s.contact_counter).1 p).source =
      p.source.getD (generate_mock_contact g s.contact_counter).1.source ∧
    (updateExceptId (generate_mock_contact g s.contact_counter).1 p).leadScore =
      p.leadScore.getD (generate_mock_contact g s.contact_counter).1.leadScore ∧
    (updateExceptId (generate_mock_contact g s.contact_counter).1 p).notes =
      p.notes.getD (generate_mock_contact g s.contact_counter).1.notes :=
  ⟨rfl, rfl, rfl, rfl, rfl, rfl, rfl, rfl, rfl, rfl, rfl, rfl, rfl, rfl⟩

/-- C7: simulate creates exactly `min(count, 20)` contacts, floored at 0 by
the empty range of a negative count and defaulting to 5, appends them in
generation order, grows the store by exactly that many, and reports the
created count in the message. -/
theorem C7_simulate_clamp (s : SrvState) (count? : Option Int) (gens : Nat → GenChoices) :
    simulate_new_contacts s count? gens =
      ({ message := "Created " ++ pyStr (min (count?.getD 5) 20).toNat ++ " new contacts"
         contacts := (genMany gens 0 (min (count?.getD 5) 20).toNat s.contact_counter).1 },
       { contacts_db :=
           s.contacts_db ++ (genMany gens 0 (min (count?.getD 5) 20).toNat s.contact_counter).1
         contact_counter := s.contact_counter + (min (count?.getD 5) 20).toNat }) ∧
    (genMany gens 0 (min (count?.getD 5) 20).toNat s.contact_counter).1.length =
      (min (count?.getD 5) 20).toNat ∧
    (count? = none → (min (count?.getD 5) 20).toNat = 5) ∧
    (∀ c : Int, count? = some c → 0 ≤ c → c ≤ 20 →
      ((min (count?.getD 5) 20).toNat : Int) = c) ∧
    (∀ c : Int, count? = some c → c < 0 → (min (count?.getD 5) 20).toNat = 0) ∧
    (∀ c : Int, count? = some c → 20 < c → (min (count?.getD 5) 20).toNat = 20) := by
  refine ⟨?_, genMany_length gens _ 0 s.contact_counter, ?_, ?_, ?_, ?_⟩
  · rw [simulate_new_contacts]
    rw [genMany_length, genMany_snd]
  · intro h
    subst h
    show (min (5 : Int) 20).toNat = 5
    omega
  · intro c hc h0 h20
    subst hc
    show ((min c 20).toNat : Int) = c
    omega
  · intro c hc hneg
    subst hc
    show (min c 20).toNat = 0
    omega
  · intro c hc h20
    subst hc
    show (min c 20).toNat = 20
    omega

/-- C7 witness: a requested count of 25 is capped at 20 creations. -/
theorem C7_witness : (min (((some (25 : Int)).getD 5)) 20).toNat = 20 :=
  (C7_simulate_clamp s0 (some 25) (fun _ => g0)).2.2.2.2.2 25 rfl (by decide)

/-- The stored list of the bootstrap state, spelled out. -/
theorem seedState_db (gens : Nat → GenChoices) :
    (seedState gens).contacts_db = (genMany gens 0 50 1000).1 := rfl

/-- C8: the bootstrap store holds exactly 50 contacts with pairwise
distinct ids, and after any sequence of create/simulate requests the stored
ids (all derived from the shared counter) remain pairwise distinct. -/
theorem C8_distinct_ids (gens : Nat → GenChoices) (ops : List Op) :
    (seedState gens).contacts_db.length = 50 ∧
    ((seedState gens).contacts_db.map (fun c => c.id)).Nodup ∧
    ((runOps (seedState gens) ops).contacts_db.map (fun c => c.id)).Nodup := by
  refine ⟨?_, idsOk_nodup (idsOk_seed gens),
    idsOk_nodup (idsOk_runOps ops _ (idsOk_seed gens))⟩
  rw [seedState_db, genMany_length]

/-- C9: the id lookup returns a stored contact with the requested id when
one exists, answers the 404 body exactly when no stored contact has the id,
and never mutates the store. -/
theorem C9_get_by_id (s : SrvState) (cid : String) :
    (get_contact s cid).2 = s ∧
    (∀ c, (get_contact s cid).1 = .ok c → c ∈ s.contacts_db ∧ c.id = cid) ∧
    ((get_contact s cid).1 = .notFound "Contact not found" ↔
      ∀ c ∈ s.contacts_db, c.id ≠ cid) ∧
    ((∃ c ∈ s.contacts_db, c.id = cid) →
      ∃ c, (get_contact s cid).1 = .ok c ∧ c ∈ s.contacts_db ∧ c.id = cid) := by
  cases hfind : s.contacts_db.find? (fun c => c.id == cid) with
  | some c =>
    have hmem := List.mem_of_find?_eq_some hfind
    have hcid : c.id = cid := by simpa using List.find?_some hfind
    have hres : (get_contact s cid).1 = .ok c := by simp [get_contact, hfind]
    have hst : (get_contact s cid).2 = s := by simp [get_contact, hfind]
    refine ⟨hst, ?_, ?_, ?_⟩
    · intro c2 h2
      rw [hres] at h2
      rcases OneResult.ok.inj h2 with rfl
      exact ⟨hmem, hcid⟩
    · constructor
      · intro h
        rw [hres] at h
        exact absurd h (by simp)
      · intro hall
        exact absurd hcid (hall c hmem)
    · intro _
      exact ⟨c, hres, hmem, hcid⟩
  | none =>
    have hnone := List.find?_eq_none.mp hfind
    have hres : (get_contact s cid).1 = .notFound "Contact not found" := by
      simp [get_contact, hfind]
    have hst : (get_contact s cid).2 = s := by simp [get_contact, hfind]
    refine ⟨hst, ?_, ?_, ?_⟩
    · intro c2 h2
      rw [hres] at h2
      exact absurd h2 (by simp)
    · constructor
      · intro _ c hm heq
        exact hnone c hm (by simp [heq])
      · intro _
        exact hres
    · intro hex
      obtain ⟨c, hm, hcid⟩ := hex
      exact absurd (by simp [hcid] : (fun x => x.id == cid) c = true) (hnone c hm)

/-- C9 witness: the 404 outcome at a concrete unknown id. -/
theorem C9_witness : (get_contact sSix "zzz").1 = .notFound "Contact not found" :=
  ((C9_get_by_id sSix "zzz").2.2.1).mpr (by decide)

/-- C10: a negative offset within the size of the filtered set is neither
rejected nor emptied: Python slice semantics return the window starting
`natAbs offset` elements from the end of the filtered sequence, while
`total` still reports the full filtered size. -/
theorem C10_negative_offset (s : SrvState) (limit? : Option Int) (o now : Int)
    (hneg : o < 0) (hge : -(s.contacts_db.length : Int) ≤ o) :
    (get_contacts s limit? (some o) none now).1 =
      .ok (.ok
        { contacts := (s.contacts_db.drop (s.contacts_db.length - o.natAbs)).take
            (pyBound s.contacts_db.length (o + min (limit?.getD 20) 100) -
              (s.contacts_db.length - o.natAbs))
          pagination :=
            { total := (s.contacts_db.length : Int)
              limit := min (limit?.getD 20) 100
              offset := o
              hasMore := decide (o + min (limit?.getD 20) 100 < (s.contacts_db.length : Int)) }
          timestamp := .iso { t := now, tz := none } }) := by
  have hstart : pyBound s.contacts_db.length o = s.contacts_db.length - o.natAbs := by
    rw [pyBound, if_pos hneg]
    omega
  simp only [get_contacts, effSince, filteredOf, Option.getD_some, pySlice]
  rw [hstart]

/-- C10 witness: offset -5 with the default limit on the six-contact store
returns the window starting five elements from the end. -/
theorem C10_witness :
    (get_contacts sSix none (some (-5)) none 0).1 =
      .ok (.ok
        { contacts := (sSix.contacts_db.drop (sSix.contacts_db.length - (-5 : Int).natAbs)).take
            (pyBound sSix.contacts_db.length (-5 + min ((none : Option Int).getD 20) 100) -
              (sSix.contacts_db.length - (-5 : Int).natAbs))
          pagination :=
            { total := (sSix.contacts_db.length : Int)
              limit := min ((none : Option Int).getD 20) 100
              offset := -5
              hasMore := decide ((-5 : Int) + min ((none : Option Int).getD 20) 100 <
                (sSix.contacts_db.length : Int)) }
          timestamp := .iso { t := 0, tz := none } }) :=
  C10_negative_offset sSix none (-5) 0 (by decide) (by decide)

end MockCrm
